import Mathlib

/-
  Verification of the rule-based HR evaluation engine.

  Shallow embedding of the evaluation core:
    - config/evaluation_criteria.py (weights, bands, thresholds, keyword lists,
      years-of-experience lookup, English-level lookup)
    - src/bias_guard.py   (BiasGuard.scan_text / check_candidate)
    - src/candidate.py    (CandidateProfile, DimensionScore, EvaluationResult)
    - src/evaluator.py    (HREvaluator: the five dimension scorers, the
      aggregation, the status decision and the bias override)

  Modelling conventions:
    - Python floats are modelled as exact rationals (ℚ).  All decimal literals
      of the source are exact in this model; IEEE-754 rounding artifacts (for
      instance Python's int(0.35*100) == 34) are below the resolution of this
      embedding, which computes int(w*100) exactly.
    - Python's `needle in haystack` on strings is raw substring containment,
      modelled on the character lists of the strings.
    - Python's str.lower() is modelled on ASCII letters only (every keyword in
      the configuration is ASCII).
    - Python's set() iteration order is unspecified; where the source converts
      a duplicate-free list through set() and back (evidence truncation,
      bias-issue dedup) the model keeps first-occurrence order.
    - `years_experience` is `float | str` in the source.  The model splits the
      possible inputs by how score_experience_years treats them: the literal
      sentinel "Not stated", Python None, a string float() rejects, a value
      parsing to IEEE NaN (for which every range comparison is False), and an
      ordinary finite numeric value (ℚ).  The lookup returns Option: `none`
      models the implicit `return None` fall-through of the Python if/elif
      chain, after which the caller's `min(10.0, None)` raises TypeError, so
      evaluation as a whole is Option-valued.
-/

/- ===== basic character / string helpers ===== -/

def asciiLower (c : Char) : Char :=
  if 65 ≤ c.toNat ∧ c.toNat ≤ 90 then Char.ofNat (c.toNat + 32) else c

def lowerStr (s : String) : String :=
  String.mk (s.toList.map asciiLower)

def listLeads : List Char → List Char → Bool
  | [], _ => true
  | _ :: _, [] => false
  | a :: as, b :: bs => a == b && listLeads as bs

def containsSub : List Char → List Char → Bool
  | [], needle => needle.isEmpty
  | c :: rest, needle => listLeads needle (c :: rest) || containsSub rest needle

def strContains (hay needle : String) : Bool :=
  containsSub hay.toList needle.toList

def joinComma (l : List String) : String :=
  String.intercalate ", " l

def foundKeywords (kws : List String) (text : String) : List String :=
  kws.filter (fun k => strContains text k)

def dedupAux : List String → List String → List String
  | _, [] => []
  | seen, x :: xs => if x ∈ seen then dedupAux seen xs else x :: dedupAux (x :: seen) xs

def dedupKeepFirst (l : List String) : List String :=
  dedupAux [] l

/- ===== config/evaluation_criteria.py ===== -/

def DIMENSION_WEIGHTS : String → ℚ
  | "core_competencies" => 35/100
  | "experience_results" => 25/100
  | "collaboration_signals" => 20/100
  | "cultural_practical_fit" => 15/100
  | "education_other" => 5/100
  | _ => 0

def get_score_band (score : ℚ) : String :=
  if score ≥ 85 then "Strong Fit"
  else if score ≥ 70 then "Good Fit"
  else if score ≥ 60 then "Borderline"
  else "Reject"

def REJECTION_THRESHOLD : ℚ := 60

def CORE_COMPETENCY_ZERO_REJECT : Bool := true

def REQUIRED_TOOLS : List String :=
  ["toon boom", "toon boom harmony",
   "after effects", "adobe after effects", "ae",
   "adobe animate", "animate cc", "flash",
   "spine", "spine 2d", "esoteric spine",
   "moho", "anime studio",
   "opentoonz", "krita"]

def PREFERRED_TOOLS : List String :=
  ["photoshop", "adobe photoshop",
   "unity", "unity3d",
   "dragonbones",
   "illustrator",
   "procreate",
   "tvpaint"]

def ANIMATION_SKILLS : List String :=
  ["character animation",
   "rigging", "rig", "skeletal animation",
   "vfx", "visual effects", "effects animation",
   "ui animation", "interface animation",
   "frame-by-frame", "frame by frame",
   "cutout animation", "cut-out",
   "motion graphics",
   "storyboard"]

def DOMAIN_EXPERIENCE : List String :=
  ["gamedev", "game dev", "game development",
   "mobile games", "casual games",
   "slot", "casino",
   "cartoon", "animated series",
   "youtube"]

def COLLABORATION_KEYWORDS : List String :=
  ["feedback", "iterate", "iteration", "revision",
   "learn", "learning", "adaptable", "flexible", "willing to learn",
   "independent", "self-directed", "autonomous",
   "team", "teamwork", "collaborate", "collaboration",
   "coordinate", "communication",
   "jira", "confluence", "slack", "git", "figma"]

def ENGLISH_LEVEL_SCORES (level : String) : ℚ :=
  if level = "Advanced" then 10
  else if level = "Intermediate" then 7
  else if level = "Basic" then 4
  else if level = "Not stated" then 5
  else 5

/- `years_experience` input domain of score_experience_years, see header. -/
inductive Years where
  | notStated : Years
  | pyNone : Years
  | unparsable : String → Years
  | nan : Years
  | num : ℚ → Years
deriving DecidableEq

/- Rendering of the years value inside evidence text (display only). -/
def ratToStr (q : ℚ) : String :=
  toString q.num ++ (if q.den = 1 then "" else "/" ++ toString q.den)

def yearsToStr : Years → String
  | Years.notStated => "Not stated"
  | Years.pyNone => "None"
  | Years.unparsable s => s
  | Years.nan => "nan"
  | Years.num q => ratToStr q

/- config.score_experience_years.  `none` is the implicit Python `return None`
   fall-through: a NaN value fails every range comparison of the chain. -/
def score_experience_years : Years → Option ℚ
  | Years.notStated => some 5
  | Years.pyNone => some 5
  | Years.unparsable _ => some 5
  | Years.nan => none
  | Years.num y =>
    if 1 ≤ y ∧ y ≤ 3 then some 10
    else if 1/2 ≤ y ∧ y < 1 then some 8
    else if 3 < y ∧ y ≤ 5 then some 8
    else if y > 5 then some 6
    else if y < 1/2 then some 5
    else none

/- ===== src/candidate.py ===== -/

structure CandidateProfile where
  id : String
  position : String
  english_level : String
  years_experience : Years
  cv_text : String
  highlights : String
  looking_for : String
  additional_info : String

structure DimensionScore where
  name : String
  score : ℚ
  weight : ℚ
  evidence : List String

def DimensionScore.weighted_score (ds : DimensionScore) : ℚ :=
  ds.score * ds.weight * 10

/- The dict of the five fixed dimension keys, in insertion order. -/
structure DimensionScores where
  core_competencies : DimensionScore
  experience_results : DimensionScore
  collaboration_signals : DimensionScore
  cultural_practical_fit : DimensionScore
  education_other : DimensionScore

def DimensionScores.toList (d : DimensionScores) : List (String × DimensionScore) :=
  [("core_competencies", d.core_competencies),
   ("experience_results", d.experience_results),
   ("collaboration_signals", d.collaboration_signals),
   ("cultural_practical_fit", d.cultural_practical_fit),
   ("education_other", d.education_other)]

structure EvaluationResult where
  candidate_id : String
  dimension_scores : DimensionScores
  final_score : ℚ
  band : String
  status : String
  shortlist_reasons : List String
  concerns : List String
  rejection_reasons : List String
  bias_flags : List String

/- ===== src/bias_guard.py ===== -/

def isWordChar (c : Char) : Bool :=
  c.isAlphanum || c == '_'

/- Generic text scanner: tries a position matcher at every position; the Bool
   argument tells whether the previous character is a word character (for the
   word-boundary checks of the regular expressions). -/
def scanForAux (q : Bool → List Char → Bool) : Bool → List Char → Bool
  | prev, [] => q prev []
  | prev, c :: rest => q prev (c :: rest) || scanForAux q (isWordChar c) rest

def scanFor (q : Bool → List Char → Bool) (l : List Char) : Bool :=
  scanForAux q false l

def matchLead : List Char → List Char → Option (List Char)
  | [], l => some l
  | _ :: _, [] => none
  | a :: as, b :: bs => if a == b then matchLead as bs else none

def dropSpaces (l : List Char) : List Char :=
  l.dropWhile Char.isWhitespace

/- One mandatory whitespace character followed by any further whitespace. -/
def spaces1 : List Char → Option (List Char)
  | [] => none
  | c :: r => if c.isWhitespace then some (dropSpaces r) else none

/- Word boundary at a position directly after a word character. -/
def wordBoundaryAfter : List Char → Bool
  | [] => true
  | c :: _ => !isWordChar c

/- One of the alternative words, starting here, followed by a word boundary. -/
def altWordAt (alts : List String) (l : List Char) : Bool :=
  alts.any fun w =>
    match matchLead w.toList l with
    | some rest => wordBoundaryAfter rest
    | none => false

/- years?\s*old\b starting here. -/
def ageYearsTail (l : List Char) : Bool :=
  match matchLead "year".toList l with
  | some r =>
    let r2 := match r with
      | 's' :: t => t
      | _ => r
    match matchLead "old".toList (dropSpaces r2) with
    | some r3 => wordBoundaryAfter r3
    | none => false
  | none => false

/- y\.?o\.?\b starting here (a trailing consumed dot needs a following word
   character for the boundary; otherwise the boundary sits after the o). -/
def yoTail (l : List Char) : Bool :=
  match l with
  | 'y' :: r =>
    let r2 := match r with
      | '.' :: t => t
      | _ => r
    match r2 with
    | 'o' :: r3 =>
      wordBoundaryAfter r3 ||
        (match r3 with
         | '.' :: c :: _ => isWordChar c
         | _ => false)
    | _ => false
  | _ => false

/- DEMOGRAPHIC_PATTERNS[0]: \b(\d{1,2})\s*(years?\s*old|y\.?o\.?)\b -/
def ageDemoAt (prev : Bool) (l : List Char) : Bool :=
  !prev &&
    match l with
    | d1 :: r1 =>
      d1.isDigit &&
        ((match r1 with
          | d2 :: r2 => d2.isDigit && (ageYearsTail (dropSpaces r2) || yoTail (dropSpaces r2))
          | [] => false)
         || ageYearsTail (dropSpaces r1) || yoTail (dropSpaces r1))
    | [] => false

/- DEMOGRAPHIC_PATTERNS[1]: \b(male|female|man|woman|boy|girl)\b -/
def genderDemoAt (prev : Bool) (l : List Char) : Bool :=
  !prev && altWordAt ["male", "female", "man", "woman", "boy", "girl"] l

/- DEMOGRAPHIC_PATTERNS[2]: \b(married|single|divorced|widow)\b -/
def maritalDemoAt (prev : Bool) (l : List Char) : Bool :=
  !prev && altWordAt ["married", "single", "divorced", "widow"] l

/- personal pattern: \bi am\s+(a\s+)?(male|female|man|woman)\b -/
def iAmGenderAt (prev : Bool) (l : List Char) : Bool :=
  !prev &&
    match matchLead "i am".toList l with
    | some r =>
      match spaces1 r with
      | some r2 =>
        altWordAt ["male", "female", "man", "woman"] r2 ||
          (match r2 with
           | 'a' :: r3 =>
             match spaces1 r3 with
             | some r4 => altWordAt ["male", "female", "man", "woman"] r4
             | none => false
           | _ => false)
      | none => false
    | none => false

/- personal pattern: \bmy (age|gender|religion|ethnicity)\b -/
def myAttributeAt (prev : Bool) (l : List Char) : Bool :=
  !prev &&
    match matchLead "my ".toList l with
    | some r => altWordAt ["age", "gender", "religion", "ethnicity"] r
    | none => false

/- personal pattern: \b(i('m| am)\s+)?\d{2}\s*years?\s*old\b.  The optional
   leading group never enables an otherwise impossible match (it forces
   whitespace before the two digits, where the bare alternative then also
   matches), so only the mandatory part is modelled. -/
def nnYearsOldAt (prev : Bool) (l : List Char) : Bool :=
  !prev &&
    match l with
    | d1 :: d2 :: r => d1.isDigit && d2.isDigit && ageYearsTail (dropSpaces r)
    | _ => false

/- BiasGuard.scan_text.  The demographic patterns are compiled with
   re.IGNORECASE and run on the raw text, the personal patterns run on the
   lower-cased text; both are modelled on the lower-cased text (all pattern
   literals are lower-case).  One issue string is appended per pattern with a
   match, in source order. -/
def scan_text (text : String) : List String :=
  let l := (lowerStr text).toList
  (if scanFor ageDemoAt l then ["Potential demographic data detected: pattern match"] else [])
    ++ (if scanFor genderDemoAt l then ["Potential demographic data detected: pattern match"] else [])
    ++ (if scanFor maritalDemoAt l then ["Potential demographic data detected: pattern match"] else [])
    ++ (if scanFor iAmGenderAt l then ["Personal demographic statement detected"] else [])
    ++ (if scanFor myAttributeAt l then ["Personal demographic statement detected"] else [])
    ++ (if scanFor nnYearsOldAt l then ["Personal demographic statement detected"] else [])

/- BiasGuard.check_candidate.  Python dedups through list(set(..)) whose order
   is unspecified; the model keeps first occurrences. -/
def check_candidate (cv_text : String) (additional_info : String) : Bool × List String :=
  let issues := dedupKeepFirst (scan_text (cv_text ++ " " ++ additional_info))
  (!issues.isEmpty, issues)

/- ===== src/evaluator.py : dimension scorers ===== -/

/- HREvaluator._combine_text: " ".join of the three parts, lower-cased
   (additional_info is a string, so Python's truthiness test keeps it). -/
def combine_text (c : CandidateProfile) : String :=
  lowerStr (c.cv_text ++ " "
    ++ (if c.highlights = "Not stated" then "" else c.highlights) ++ " "
    ++ c.additional_info)

/- HREvaluator._score_core_competencies.  The three keyword lists are
   duplicate-free, so Python's list(set(found)) dedup is the identity on the
   matches; its unspecified order is modelled as list order.  The score is
   only capped once, at the end, as in the source. -/
def core_score_val (text : String) : ℚ :=
  min 10
    ((if (foundKeywords REQUIRED_TOOLS text).isEmpty then 0 else 4)
      + (if (foundKeywords PREFERRED_TOOLS text).isEmpty then 0
         else min 2 (((foundKeywords PREFERRED_TOOLS text).length : ℚ) * (1/2)))
      + (if (foundKeywords ANIMATION_SKILLS text).isEmpty then 0
         else min 4 (((foundKeywords ANIMATION_SKILLS text).length : ℚ) * (3/5))))

def core_evidence (text : String) : List String :=
  let ev : List String :=
    (if (foundKeywords REQUIRED_TOOLS text).isEmpty then []
     else ["Required tool: " ++ joinComma ((foundKeywords REQUIRED_TOOLS text).take 3)])
      ++ (if (foundKeywords PREFERRED_TOOLS text).isEmpty then []
          else ["Additional tools: " ++ joinComma ((foundKeywords PREFERRED_TOOLS text).take 3)])
      ++ (if (foundKeywords ANIMATION_SKILLS text).isEmpty then []
          else ["Animation skills: " ++ joinComma ((foundKeywords ANIMATION_SKILLS text).take 4)])
  if ev.isEmpty then ["Limited technical signals detected"] else ev

def score_core_competencies (text : String) : ℚ × List String :=
  (core_score_val text, core_evidence text)

def PROJECT_INDICATORS : List String :=
  ["project", "released", "launched", "shipped",
   "created", "developed", "built", "worked on",
   "portfolio", "freelance", "client"]

def exp_project_count (text : String) : ℕ :=
  (PROJECT_INDICATORS.filter (fun k => strContains text k)).length

/- The recurring source pattern `if cond: score = min(10, score + d)`. -/
def capStep (cond : Bool) (s d : ℚ) : ℚ :=
  if cond then min 10 (s + d) else s

def exp_score_val (text : String) (years_score : ℚ) : ℚ :=
  min 10
    (capStep (!(foundKeywords DOMAIN_EXPERIENCE text).isEmpty)
      (capStep (decide (3 ≤ exp_project_count text)) years_score 1) (1/2))

def exp_evidence (c : CandidateProfile) (text : String) : List String :=
  let ev : List String :=
    (if c.years_experience = Years.notStated then []
     else ["Experience: " ++ yearsToStr c.years_experience ++ " years"])
      ++ (if 3 ≤ exp_project_count text then ["Multiple project references found"] else [])
      ++ (if (foundKeywords DOMAIN_EXPERIENCE text).isEmpty then []
          else ["Domain: " ++ joinComma ((foundKeywords DOMAIN_EXPERIENCE text).take 3)])
  if ev.isEmpty then ["Experience details not clearly stated"] else ev

/- HREvaluator._score_experience; none models the TypeError raised by
   min(10.0, None) when the years lookup fell through (NaN input). -/
def score_experience (c : CandidateProfile) (text : String) : Option (ℚ × List String) :=
  match score_experience_years c.years_experience with
  | none => none
  | some years_score => some (exp_score_val text years_score, exp_evidence c text)

def TEAM_LITERAL_PATTERNS : List String :=
  ["worked with", "collaborated", "mentored", "supervised"]

/- r"team of \d+" matching anywhere: the literal "team of " followed by a digit. -/
def teamOfAt (l : List Char) : Bool :=
  match matchLead "team of ".toList l with
  | some (d :: _) => d.isDigit
  | _ => false

def teamOfFound : List Char → Bool
  | [] => false
  | c :: rest => teamOfAt (c :: rest) || teamOfFound rest

/- The team_patterns loop of _score_collaboration: first match wins but the
   score bump and the evidence string do not depend on which pattern matched. -/
def team_pattern_found (text : String) : Bool :=
  teamOfFound text.toList || TEAM_LITERAL_PATTERNS.any (fun p => strContains text p)

def collab_score_val (text : String) : ℚ :=
  min 10
    (capStep (team_pattern_found text)
      (if (foundKeywords COLLABORATION_KEYWORDS text).isEmpty then 5
       else 5 + min 3 (((foundKeywords COLLABORATION_KEYWORDS text).length : ℚ) * (2/5)))
      (1/2))

def collab_evidence (text : String) : List String :=
  let ev : List String :=
    (if (foundKeywords COLLABORATION_KEYWORDS text).isEmpty then []
     else ["Collaboration signals: " ++ joinComma ((foundKeywords COLLABORATION_KEYWORDS text).take 4)])
      ++ (if team_pattern_found text then ["Direct team experience mentioned"] else [])
  if ev.isEmpty then ["Limited collaboration signals (common for individual contributors)"] else ev

/- HREvaluator._score_collaboration -/
def score_collaboration (text : String) : ℚ × List String :=
  (collab_score_val text, collab_evidence text)

def REMOTE_KEYWORDS : List String := ["remote", "flexible", "work from home", "wfh"]

def PRESSURE_KEYWORDS : List String := ["deadline", "pressure", "fast-paced"]

def fit_score_val (c : CandidateProfile) (text : String) : ℚ :=
  min 10
    (capStep (PRESSURE_KEYWORDS.any (fun k => strContains text k))
      (capStep (REMOTE_KEYWORDS.any (fun k => strContains text k))
        (if c.english_level = "Not stated" then 6
         else 6 + (ENGLISH_LEVEL_SCORES c.english_level - 5) * (3/10))
        (1/2))
      (1/2))

def fit_evidence (c : CandidateProfile) (text : String) : List String :=
  let ev : List String :=
    (if c.english_level = "Not stated" then [] else ["English: " ++ c.english_level])
      ++ (if REMOTE_KEYWORDS.any (fun k => strContains text k) then
            ["Remote work experience/preference"] else [])
      ++ (if PRESSURE_KEYWORDS.any (fun k => strContains text k) then
            ["Deadline awareness mentioned"] else [])
      ++ (if c.looking_for = "Not stated" then [] else ["Stated job preferences available"])
  if ev.isEmpty then ["Standard fit indicators"] else ev

/- HREvaluator._score_cultural_fit -/
def score_cultural_fit (c : CandidateProfile) (text : String) : ℚ × List String :=
  (fit_score_val c text, fit_evidence c text)

def EDU_KEYWORDS : List String :=
  ["degree", "bachelor", "master", "university", "college",
   "course", "certificate", "certification", "diploma",
   "school", "academy", "bootcamp"]

def ANIMATION_TRAINING : List String := ["animation course", "artcraft", "motion academy"]

def edu_score_val (text : String) : ℚ :=
  min 10
    (capStep (ANIMATION_TRAINING.any (fun k => strContains text k))
      (if (foundKeywords EDU_KEYWORDS text).isEmpty then 5
       else 5 + min 3 (((foundKeywords EDU_KEYWORDS text).length : ℚ) * (1/2)))
      1)

def edu_evidence (text : String) : List String :=
  let ev : List String :=
    (if (foundKeywords EDU_KEYWORDS text).isEmpty then []
     else ["Education signals: " ++ joinComma ((foundKeywords EDU_KEYWORDS text).take 3)])
      ++ (if ANIMATION_TRAINING.any (fun k => strContains text k) then
            ["Relevant animation training"] else [])
  if ev.isEmpty then ["No formal education stated (not penalized)"] else ev

/- HREvaluator._score_education (the keyword list is duplicate-free, so the
   list(set(..)) dedup of the evidence is the identity, modelled in list order). -/
def score_education (text : String) : ℚ × List String :=
  (edu_score_val text, edu_evidence text)

/- ===== src/evaluator.py : status decision ===== -/

/- Model of Python's f-string "...:.1f" one-decimal rendering (display only;
   Python rounds the underlying float half-to-even, the model rounds the exact
   rational half-up; no claim depends on the rendered digits). -/
def fmt1 (q : ℚ) : String :=
  let s : ℤ := round (q * 10)
  (if s < 0 then "-" else "") ++ toString (s.natAbs / 10) ++ "." ++ toString (s.natAbs % 10)

/- int(weight*100): truncation toward zero equals floor on the positive
   weights.  (On Python floats int(0.35*100) is 34; the exact model gives 35;
   display only.) -/
def pctInt (w : ℚ) : ℤ :=
  ⌊w * 100⌋

/- Stable descending insertion by score: models Python's stable
   sorted(items, key=score, reverse=True). -/
def insertDesc (x : String × DimensionScore) :
    List (String × DimensionScore) → List (String × DimensionScore)
  | [] => [x]
  | y :: ys => if x.2.score < y.2.score then y :: insertDesc x ys else x :: y :: ys

def sortByScoreDesc (l : List (String × DimensionScore)) : List (String × DimensionScore) :=
  l.foldr insertDesc []

/- HREvaluator._determine_status; returns (status, shortlist_reasons,
   concerns, rejection_reasons).  The band argument is unused in the source. -/
def determine_status (final_score : ℚ) (_band : String)
    (dimension_scores : DimensionScores) (core_score : ℚ) :
    String × List String × List String × List String :=
  if CORE_COMPETENCY_ZERO_REJECT = true ∧ core_score = 0 then
    ("Rejected", [], [],
     ["Core competencies do not match required role stack (no relevant tools detected)"])
  else if final_score < REJECTION_THRESHOLD then
    ("Rejected", [], [],
     ("Score " ++ fmt1 final_score ++ " below threshold (60)")
       :: ((dimension_scores.toList.filter (fun p => decide (p.2.score < 4))).map
             (fun p => "Weak " ++ p.2.name ++ ": " ++ fmt1 p.2.score ++ "/10")))
  else
    ("Shortlisted",
     (((sortByScoreDesc dimension_scores.toList).take 3).filter
         (fun p => decide (6 ≤ p.2.score))).map
       (fun p => p.2.name ++ " (" ++ toString (pctInt p.2.weight) ++ "%): " ++ p.2.evidence.headD ""),
     (dimension_scores.toList.filter (fun p => decide (p.2.score < 5))).map
       (fun p => "Limited " ++ lowerStr p.2.name ++ " signals"),
     [])

/- ===== src/evaluator.py : HREvaluator.evaluate ===== -/

def fullTextOf (c : CandidateProfile) : String :=
  combine_text c

def coreOf (c : CandidateProfile) : ℚ × List String :=
  score_core_competencies (fullTextOf c)

def expOf (c : CandidateProfile) : Option (ℚ × List String) :=
  score_experience c (fullTextOf c)

def collabOf (c : CandidateProfile) : ℚ × List String :=
  score_collaboration (fullTextOf c)

def fitOf (c : CandidateProfile) : ℚ × List String :=
  score_cultural_fit c (fullTextOf c)

def eduOf (c : CandidateProfile) : ℚ × List String :=
  score_education (fullTextOf c)

def flaggedOf (c : CandidateProfile) : Bool :=
  (check_candidate c.cv_text c.additional_info).1

def biasIssuesOf (c : CandidateProfile) : List String :=
  (check_candidate c.cv_text c.additional_info).2

def dimsOf (c : CandidateProfile) (e : ℚ × List String) : DimensionScores :=
  { core_competencies :=
      { name := "Core Competencies", score := (coreOf c).1,
        weight := DIMENSION_WEIGHTS "core_competencies", evidence := (coreOf c).2 }
    experience_results :=
      { name := "Experience & Results", score := e.1,
        weight := DIMENSION_WEIGHTS "experience_results", evidence := e.2 }
    collaboration_signals :=
      { name := "Collaboration Signals", score := (collabOf c).1,
        weight := DIMENSION_WEIGHTS "collaboration_signals", evidence := (collabOf c).2 }
    cultural_practical_fit :=
      { name := "Cultural & Practical Fit", score := (fitOf c).1,
        weight := DIMENSION_WEIGHTS "cultural_practical_fit", evidence := (fitOf c).2 }
    education_other :=
      { name := "Education & Other Signals", score := (eduOf c).1,
        weight := DIMENSION_WEIGHTS "education_other", evidence := (eduOf c).2 } }

def finalOf (c : CandidateProfile) (e : ℚ × List String) : ℚ :=
  (((dimsOf c e).toList).map (fun p => p.2.weighted_score)).sum

def statusTuple (c : CandidateProfile) (e : ℚ × List String) :
    String × List String × List String × List String :=
  determine_status (finalOf c e) (get_score_band (finalOf c e)) (dimsOf c e) (coreOf c).1

def statusFinal (c : CandidateProfile) (e : ℚ × List String) : String :=
  if flaggedOf c then "Flagged for Review" else (statusTuple c e).1

def buildResult (c : CandidateProfile) (e : ℚ × List String) (st : String) : EvaluationResult :=
  { candidate_id := c.id
    dimension_scores := dimsOf c e
    final_score := finalOf c e
    band := get_score_band (finalOf c e)
    status := st
    shortlist_reasons := (statusTuple c e).2.1
    concerns := (statusTuple c e).2.2.1
    rejection_reasons := (statusTuple c e).2.2.2
    bias_flags := biasIssuesOf c }

/- HREvaluator.evaluate: none when _score_experience raised (NaN years). -/
def evaluate (c : CandidateProfile) : Option EvaluationResult :=
  (expOf c).map fun e => buildResult c e (statusFinal c e)

/- evaluate with the final bias override (lines 107-109 of evaluator.py)
   removed: the score-based decision alone, used to state that the override
   changes nothing but the status field. -/
def evaluate_plain (c : CandidateProfile) : Option EvaluationResult :=
  (expOf c).map fun e => buildResult c e (statusTuple c e).1

/- ===== helper lemmas ===== -/

lemma ifEmpty_ne_nil (l : List String) (f : String) :
    (if l.isEmpty then [f] else l) ≠ [] := by
  cases l <;> simp

lemma core_score_val_bounds (t : String) : 0 ≤ core_score_val t ∧ core_score_val t ≤ 10 := by
  unfold core_score_val
  refine ⟨le_min (by norm_num) ?_, min_le_left _ _⟩
  have m2 : (0:ℚ) ≤ min 2 (((foundKeywords PREFERRED_TOOLS t).length : ℚ) * (1/2)) :=
    le_min (by norm_num) (by positivity)
  have m3 : (0:ℚ) ≤ min 4 (((foundKeywords ANIMATION_SKILLS t).length : ℚ) * (3/5)) :=
    le_min (by norm_num) (by positivity)
  split_ifs <;> linarith

lemma capStep_ge {a s d : ℚ} (b : Bool) (ha : a ≤ 10) (hs : a ≤ s) (hd : 0 ≤ d) :
    a ≤ capStep b s d := by
  unfold capStep
  split_ifs
  · exact le_min ha (by linarith)
  · exact hs

lemma collab_score_val_bounds (t : String) :
    5 ≤ collab_score_val t ∧ collab_score_val t ≤ 10 := by
  simp only [collab_score_val]
  have m : (0:ℚ) ≤ min 3 (((foundKeywords COLLABORATION_KEYWORDS t).length : ℚ) * (2/5)) :=
    le_min (by norm_num) (by positivity)
  refine ⟨le_min (by norm_num) (capStep_ge _ (by norm_num) ?_ (by norm_num)), min_le_left _ _⟩
  split_ifs <;> linarith

lemma english_level_bounds (lvl : String) :
    4 ≤ ENGLISH_LEVEL_SCORES lvl ∧ ENGLISH_LEVEL_SCORES lvl ≤ 10 := by
  unfold ENGLISH_LEVEL_SCORES
  split_ifs <;> norm_num

lemma fit_score_val_bounds (c : CandidateProfile) (t : String) :
    5 ≤ fit_score_val c t ∧ fit_score_val c t ≤ 10 := by
  simp only [fit_score_val]
  have h1 := (english_level_bounds c.english_level).1
  refine ⟨le_min (by norm_num)
    (capStep_ge _ (by norm_num) (capStep_ge _ (by norm_num) ?_ (by norm_num)) (by norm_num)),
    min_le_left _ _⟩
  split_ifs <;> linarith

lemma edu_score_val_bounds (t : String) : 5 ≤ edu_score_val t ∧ edu_score_val t ≤ 10 := by
  simp only [edu_score_val]
  have m : (0:ℚ) ≤ min 3 (((foundKeywords EDU_KEYWORDS t).length : ℚ) * (1/2)) :=
    le_min (by norm_num) (by positivity)
  refine ⟨le_min (by norm_num) (capStep_ge _ (by norm_num) ?_ (by norm_num)), min_le_left _ _⟩
  split_ifs <;> linarith

lemma sey_mem {y : Years} {s : ℚ} (h : score_experience_years y = some s) :
    s = 5 ∨ s = 6 ∨ s = 8 ∨ s = 10 := by
  cases y with
  | notStated =>
    simp only [score_experience_years, Option.some.injEq] at h
    exact Or.inl h.symm
  | pyNone =>
    simp only [score_experience_years, Option.some.injEq] at h
    exact Or.inl h.symm
  | unparsable s' =>
    simp only [score_experience_years, Option.some.injEq] at h
    exact Or.inl h.symm
  | nan => simp [score_experience_years] at h
  | num q =>
    simp only [score_experience_years] at h
    split_ifs at h <;> simp_all

lemma sey_bounds {y : Years} {s : ℚ} (h : score_experience_years y = some s) :
    5 ≤ s ∧ s ≤ 10 := by
  rcases sey_mem h with h5 | h6 | h8 | h10 <;> subst_vars <;> norm_num

lemma exp_score_val_bounds {s : ℚ} (t : String) (h5 : 5 ≤ s) (_h10 : s ≤ 10) :
    5 ≤ exp_score_val t s ∧ exp_score_val t s ≤ 10 := by
  simp only [exp_score_val]
  exact ⟨le_min (by norm_num)
    (capStep_ge _ (by norm_num) (capStep_ge _ (by norm_num) h5 (by norm_num)) (by norm_num)),
    min_le_left _ _⟩

lemma core_evidence_ne (t : String) : core_evidence t ≠ [] := by
  simp only [core_evidence]
  exact ifEmpty_ne_nil _ _

lemma exp_evidence_ne (c : CandidateProfile) (t : String) : exp_evidence c t ≠ [] := by
  simp only [exp_evidence]
  exact ifEmpty_ne_nil _ _

lemma collab_evidence_ne (t : String) : collab_evidence t ≠ [] := by
  simp only [collab_evidence]
  exact ifEmpty_ne_nil _ _

lemma fit_evidence_ne (c : CandidateProfile) (t : String) : fit_evidence c t ≠ [] := by
  simp only [fit_evidence]
  exact ifEmpty_ne_nil _ _

lemma edu_evidence_ne (t : String) : edu_evidence t ≠ [] := by
  simp only [edu_evidence]
  exact ifEmpty_ne_nil _ _

@[simp] lemma buildResult_id (c : CandidateProfile) (e : ℚ × List String) (st : String) :
    (buildResult c e st).candidate_id = c.id := rfl

@[simp] lemma buildResult_dims (c : CandidateProfile) (e : ℚ × List String) (st : String) :
    (buildResult c e st).dimension_scores = dimsOf c e := rfl

@[simp] lemma buildResult_final (c : CandidateProfile) (e : ℚ × List String) (st : String) :
    (buildResult c e st).final_score = finalOf c e := rfl

@[simp] lemma buildResult_band (c : CandidateProfile) (e : ℚ × List String) (st : String) :
    (buildResult c e st).band = get_score_band (finalOf c e) := rfl

@[simp] lemma buildResult_status (c : CandidateProfile) (e : ℚ × List String) (st : String) :
    (buildResult c e st).status = st := rfl

@[simp] lemma buildResult_shortlist (c : CandidateProfile) (e : ℚ × List String) (st : String) :
    (buildResult c e st).shortlist_reasons = (statusTuple c e).2.1 := rfl

@[simp] lemma buildResult_concerns (c : CandidateProfile) (e : ℚ × List String) (st : String) :
    (buildResult c e st).concerns = (statusTuple c e).2.2.1 := rfl

@[simp] lemma buildResult_rejection (c : CandidateProfile) (e : ℚ × List String) (st : String) :
    (buildResult c e st).rejection_reasons = (statusTuple c e).2.2.2 := rfl

@[simp] lemma buildResult_bias (c : CandidateProfile) (e : ℚ × List String) (st : String) :
    (buildResult c e st).bias_flags = biasIssuesOf c := rfl

@[simp] lemma dimsOf_core_score (c : CandidateProfile) (e : ℚ × List String) :
    (dimsOf c e).core_competencies.score = (coreOf c).1 := rfl

@[simp] lemma dimsOf_exp_score (c : CandidateProfile) (e : ℚ × List String) :
    (dimsOf c e).experience_results.score = e.1 := rfl

@[simp] lemma dimsOf_collab_score (c : CandidateProfile) (e : ℚ × List String) :
    (dimsOf c e).collaboration_signals.score = (collabOf c).1 := rfl

@[simp] lemma dimsOf_fit_score (c : CandidateProfile) (e : ℚ × List String) :
    (dimsOf c e).cultural_practical_fit.score = (fitOf c).1 := rfl

@[simp] lemma dimsOf_edu_score (c : CandidateProfile) (e : ℚ × List String) :
    (dimsOf c e).education_other.score = (eduOf c).1 := rfl

lemma evaluate_eq_some {c : CandidateProfile} {r : EvaluationResult}
    (h : evaluate c = some r) :
    ∃ e, expOf c = some e ∧ r = buildResult c e (statusFinal c e) := by
  unfold evaluate at h
  cases hE : expOf c with
  | none => rw [hE] at h; simp at h
  | some e =>
    rw [hE] at h
    simp only [Option.map_some', Option.some.injEq] at h
    exact ⟨e, rfl, h.symm⟩

lemma evaluate_some_of_exp {c : CandidateProfile} {e : ℚ × List String}
    (hE : expOf c = some e) :
    evaluate c = some (buildResult c e (statusFinal c e)) := by
  unfold evaluate
  rw [hE]
  rfl

lemma determine_status_fst (f : ℚ) (b : String) (d : DimensionScores) (cs : ℚ) :
    (determine_status f b d cs).1 = "Rejected" ∨ (determine_status f b d cs).1 = "Shortlisted" := by
  unfold determine_status
  split_ifs <;> simp

/- ===== concrete candidates used by the claim theorems ===== -/

/- The Section-8 scenario candidate of the spec. -/
def c3Candidate : CandidateProfile :=
  { id := "c3", position := "2D Animator", english_level := "Advanced",
    years_experience := Years.num 2,
    cv_text := "after effects, rigging, collaborated with team, 2 years experience, fluent English",
    highlights := "", looking_for := "", additional_info := "" }

/- A candidate with entirely empty free text. -/
def emptyCandidate : CandidateProfile :=
  { id := "e", position := "", english_level := "Not stated",
    years_experience := Years.notStated,
    cv_text := "", highlights := "", looking_for := "Not stated", additional_info := "" }

/- A candidate whose additional_info triggers the bias guard. -/
def flagCandidate : CandidateProfile :=
  { id := "f", position := "2D Animator", english_level := "Not stated",
    years_experience := Years.notStated,
    cv_text := "", highlights := "Not stated", looking_for := "Not stated",
    additional_info := "i am a woman" }

/- A shortlisted candidate (same profile as the Section-8 scenario). -/
def c7Candidate : CandidateProfile :=
  { id := "w7", position := "2D Animator", english_level := "Advanced",
    years_experience := Years.num 2,
    cv_text := "after effects, rigging, collaborated with team, 2 years experience, fluent English",
    highlights := "", looking_for := "", additional_info := "" }

/- A candidate that mentions no animation tool: the letter pair "ae" occurs
   only inside the word "aesthetic". -/
def c10Candidate : CandidateProfile :=
  { id := "x", position := "2D Animator", english_level := "Not stated",
    years_experience := Years.notStated,
    cv_text := "aesthetic", highlights := "Not stated", looking_for := "Not stated",
    additional_info := "" }

lemma w_core : DIMENSION_WEIGHTS "core_competencies" = 35/100 := rfl

lemma w_exp : DIMENSION_WEIGHTS "experience_results" = 25/100 := rfl

lemma w_collab : DIMENSION_WEIGHTS "collaboration_signals" = 20/100 := rfl

lemma w_fit : DIMENSION_WEIGHTS "cultural_practical_fit" = 15/100 := rfl

lemma w_edu : DIMENSION_WEIGHTS "education_other" = 5/100 := rfl

lemma c3_core : (coreOf c3Candidate).1 = 26/5 := by
  have hreq : (foundKeywords REQUIRED_TOOLS (fullTextOf c3Candidate)).isEmpty = false := by decide
  have hpref : (foundKeywords PREFERRED_TOOLS (fullTextOf c3Candidate)).isEmpty = true := by decide
  have hskill : foundKeywords ANIMATION_SKILLS (fullTextOf c3Candidate) = ["rigging", "rig"] := by
    decide
  show core_score_val (fullTextOf c3Candidate) = 26/5
  unfold core_score_val
  rw [hreq, hpref, hskill]
  norm_num [min_def]

lemma c3_exp : expOf c3Candidate =
    some (10, exp_evidence c3Candidate (fullTextOf c3Candidate)) := by
  have hy : score_experience_years c3Candidate.years_experience = some 10 := by
    show score_experience_years (Years.num 2) = some 10
    simp only [score_experience_years]
    rw [if_pos (by norm_num : (1:ℚ) ≤ 2 ∧ (2:ℚ) ≤ 3)]
  have hp : (decide (3 ≤ exp_project_count (fullTextOf c3Candidate))) = false := by decide
  have hd : (foundKeywords DOMAIN_EXPERIENCE (fullTextOf c3Candidate)).isEmpty = true := by decide
  have hv : exp_score_val (fullTextOf c3Candidate) 10 = 10 := by
    unfold exp_score_val capStep
    rw [hp, hd]
    norm_num
  show score_experience c3Candidate (fullTextOf c3Candidate) =
    some (10, exp_evidence c3Candidate (fullTextOf c3Candidate))
  unfold score_experience
  rw [hy]
  show some (exp_score_val (fullTextOf c3Candidate) 10,
    exp_evidence c3Candidate (fullTextOf c3Candidate)) = _
  rw [hv]

lemma c3_collab : (collabOf c3Candidate).1 = 63/10 := by
  have h1 : foundKeywords COLLABORATION_KEYWORDS (fullTextOf c3Candidate) =
      ["team", "collaborate"] := by decide
  have h2 : team_pattern_found (fullTextOf c3Candidate) = true := by decide
  show collab_score_val (fullTextOf c3Candidate) = 63/10
  unfold collab_score_val capStep
  rw [h1, h2]
  norm_num [min_def]

lemma c3_fit : (fitOf c3Candidate).1 = 15/2 := by
  have hr : (REMOTE_KEYWORDS.any fun k => strContains (fullTextOf c3Candidate) k) = false := by
    decide
  have hp : (PRESSURE_KEYWORDS.any fun k => strContains (fullTextOf c3Candidate) k) = false := by
    decide
  have he : ENGLISH_LEVEL_SCORES c3Candidate.english_level = 10 := by
    show ENGLISH_LEVEL_SCORES "Advanced" = 10
    unfold ENGLISH_LEVEL_SCORES
    rw [if_pos rfl]
  show fit_score_val c3Candidate (fullTextOf c3Candidate) = 15/2
  unfold fit_score_val capStep
  rw [hr, hp, he, if_neg (by decide : ¬(c3Candidate.english_level = "Not stated"))]
  norm_num [min_def]

lemma c3_edu : (eduOf c3Candidate).1 = 5 := by
  have h1 : (foundKeywords EDU_KEYWORDS (fullTextOf c3Candidate)).isEmpty = true := by decide
  have h2 : (ANIMATION_TRAINING.any fun k => strContains (fullTextOf c3Candidate) k) = false := by
    decide
  show edu_score_val (fullTextOf c3Candidate) = 5
  unfold edu_score_val capStep
  rw [h1, h2]
  norm_num

lemma c3_final :
    finalOf c3Candidate (10, exp_evidence c3Candidate (fullTextOf c3Candidate)) = 1391/20 := by
  unfold finalOf
  simp only [DimensionScores.toList, dimsOf, List.map_cons, List.map_nil, List.sum_cons,
    List.sum_nil, DimensionScore.weighted_score]
  rw [c3_core, c3_collab, c3_fit, c3_edu, w_core, w_exp, w_collab, w_fit, w_edu]
  norm_num

lemma c3_flag : flaggedOf c3Candidate = false := by decide

lemma statusFinal_not_flagged {c : CandidateProfile} (e : ℚ × List String)
    (h : flaggedOf c = false) : statusFinal c e = (statusTuple c e).1 := by
  unfold statusFinal
  rw [h]
  rfl

lemma statusFinal_flagged {c : CandidateProfile} (e : ℚ × List String)
    (h : flaggedOf c = true) : statusFinal c e = "Flagged for Review" := by
  unfold statusFinal
  rw [h]
  rfl

lemma determine_status_zero_case (f : ℚ) (b : String) (d : DimensionScores) {cs : ℚ}
    (hcs : cs = 0) :
    determine_status f b d cs =
      ("Rejected", [], [],
       ["Core competencies do not match required role stack (no relevant tools detected)"]) := by
  unfold determine_status
  rw [if_pos ⟨rfl, hcs⟩]

lemma determine_status_threshold_case {f : ℚ} (b : String) (d : DimensionScores) {cs : ℚ}
    (hcs : ¬ cs = 0) (hf : f < REJECTION_THRESHOLD) :
    determine_status f b d cs =
      ("Rejected", [], [],
       ("Score " ++ fmt1 f ++ " below threshold (60)")
         :: ((d.toList.filter (fun p => decide (p.2.score < 4))).map
               (fun p => "Weak " ++ p.2.name ++ ": " ++ fmt1 p.2.score ++ "/10"))) := by
  unfold determine_status
  rw [if_neg (by simp [hcs]), if_pos hf]

lemma determine_status_shortlist_case {f : ℚ} (b : String) (d : DimensionScores) {cs : ℚ}
    (hcs : ¬ cs = 0) (hf : ¬ f < REJECTION_THRESHOLD) :
    determine_status f b d cs =
      ("Shortlisted",
       (((sortByScoreDesc d.toList).take 3).filter (fun p => decide (6 ≤ p.2.score))).map
         (fun p => p.2.name ++ " (" ++ toString (pctInt p.2.weight) ++ "%): "
           ++ p.2.evidence.headD ""),
       (d.toList.filter (fun p => decide (p.2.score < 5))).map
         (fun p => "Limited " ++ lowerStr p.2.name ++ " signals"),
       []) := by
  unfold determine_status
  rw [if_neg (by simp [hcs]), if_neg hf]

lemma empty_core : (coreOf emptyCandidate).1 = 0 := by
  have h1 : (foundKeywords REQUIRED_TOOLS (fullTextOf emptyCandidate)).isEmpty = true := by decide
  have h2 : (foundKeywords PREFERRED_TOOLS (fullTextOf emptyCandidate)).isEmpty = true := by decide
  have h3 : (foundKeywords ANIMATION_SKILLS (fullTextOf emptyCandidate)).isEmpty = true := by
    decide
  show core_score_val (fullTextOf emptyCandidate) = 0
  unfold core_score_val
  rw [h1, h2, h3]
  norm_num

lemma empty_exp : expOf emptyCandidate =
    some (5, exp_evidence emptyCandidate (fullTextOf emptyCandidate)) := by
  have hp : (decide (3 ≤ exp_project_count (fullTextOf emptyCandidate))) = false := by decide
  have hd : (foundKeywords DOMAIN_EXPERIENCE (fullTextOf emptyCandidate)).isEmpty = true := by
    decide
  have hv : exp_score_val (fullTextOf emptyCandidate) 5 = 5 := by
    unfold exp_score_val capStep
    rw [hp, hd]
    norm_num
  show score_experience emptyCandidate (fullTextOf emptyCandidate) =
    some (5, exp_evidence emptyCandidate (fullTextOf emptyCandidate))
  unfold score_experience
  show some (exp_score_val (fullTextOf emptyCandidate) 5,
    exp_evidence emptyCandidate (fullTextOf emptyCandidate)) = _
  rw [hv]

lemma empty_flag : flaggedOf emptyCandidate = false := by decide

lemma flag_flagged : flaggedOf flagCandidate = true := by decide

lemma flag_exp : expOf flagCandidate =
    some (5, exp_evidence flagCandidate (fullTextOf flagCandidate)) := by
  have hp : (decide (3 ≤ exp_project_count (fullTextOf flagCandidate))) = false := by decide
  have hd : (foundKeywords DOMAIN_EXPERIENCE (fullTextOf flagCandidate)).isEmpty = true := by
    decide
  have hv : exp_score_val (fullTextOf flagCandidate) 5 = 5 := by
    unfold exp_score_val capStep
    rw [hp, hd]
    norm_num
  show score_experience flagCandidate (fullTextOf flagCandidate) =
    some (5, exp_evidence flagCandidate (fullTextOf flagCandidate))
  unfold score_experience
  show some (exp_score_val (fullTextOf flagCandidate) 5,
    exp_evidence flagCandidate (fullTextOf flagCandidate)) = _
  rw [hv]

lemma c10_req : foundKeywords REQUIRED_TOOLS (fullTextOf c10Candidate) = ["ae"] := by decide

lemma c10_core : (coreOf c10Candidate).1 = 4 := by
  have h1 : (foundKeywords REQUIRED_TOOLS (fullTextOf c10Candidate)).isEmpty = false := by decide
  have h2 : (foundKeywords PREFERRED_TOOLS (fullTextOf c10Candidate)).isEmpty = true := by decide
  have h3 : (foundKeywords ANIMATION_SKILLS (fullTextOf c10Candidate)).isEmpty = true := by decide
  show core_score_val (fullTextOf c10Candidate) = 4
  unfold core_score_val
  rw [h1, h2, h3]
  norm_num

lemma c10_exp : expOf c10Candidate =
    some (5, exp_evidence c10Candidate (fullTextOf c10Candidate)) := by
  have hp : (decide (3 ≤ exp_project_count (fullTextOf c10Candidate))) = false := by decide
  have hd : (foundKeywords DOMAIN_EXPERIENCE (fullTextOf c10Candidate)).isEmpty = true := by
    decide
  have hv : exp_score_val (fullTextOf c10Candidate) 5 = 5 := by
    unfold exp_score_val capStep
    rw [hp, hd]
    norm_num
  show score_experience c10Candidate (fullTextOf c10Candidate) =
    some (5, exp_evidence c10Candidate (fullTextOf c10Candidate))
  unfold score_experience
  show some (exp_score_val (fullTextOf c10Candidate) 5,
    exp_evidence c10Candidate (fullTextOf c10Candidate)) = _
  rw [hv]

lemma c10_collab : (collabOf c10Candidate).1 = 5 := by
  have h1 : (foundKeywords COLLABORATION_KEYWORDS (fullTextOf c10Candidate)).isEmpty = true := by
    decide
  have h2 : team_pattern_found (fullTextOf c10Candidate) = false := by decide
  show collab_score_val (fullTextOf c10Candidate) = 5
  unfold collab_score_val capStep
  rw [h1, h2]
  norm_num

lemma c10_fit : (fitOf c10Candidate).1 = 6 := by
  have hr : (REMOTE_KEYWORDS.any fun k => strContains (fullTextOf c10Candidate) k) = false := by
    decide
  have hp : (PRESSURE_KEYWORDS.any fun k => strContains (fullTextOf c10Candidate) k) = false := by
    decide
  show fit_score_val c10Candidate (fullTextOf c10Candidate) = 6
  unfold fit_score_val capStep
  rw [hr, hp, if_pos (show c10Candidate.english_level = "Not stated" by rfl)]
  norm_num

lemma c10_edu : (eduOf c10Candidate).1 = 5 := by
  have h1 : (foundKeywords EDU_KEYWORDS (fullTextOf c10Candidate)).isEmpty = true := by decide
  have h2 : (ANIMATION_TRAINING.any fun k => strContains (fullTextOf c10Candidate) k) = false := by
    decide
  show edu_score_val (fullTextOf c10Candidate) = 5
  unfold edu_score_val capStep
  rw [h1, h2]
  norm_num

lemma c10_final :
    finalOf c10Candidate (5, exp_evidence c10Candidate (fullTextOf c10Candidate)) = 48 := by
  unfold finalOf
  simp only [DimensionScores.toList, dimsOf, List.map_cons, List.map_nil, List.sum_cons,
    List.sum_nil, DimensionScore.weighted_score]
  rw [c10_core, c10_collab, c10_fit, c10_edu, w_core, w_exp, w_collab, w_fit, w_edu]
  norm_num

lemma c10_flag : flaggedOf c10Candidate = false := by decide

@[simp] lemma coreOf_fst (c : CandidateProfile) :
    (coreOf c).1 = core_score_val (fullTextOf c) := rfl

@[simp] lemma coreOf_snd (c : CandidateProfile) :
    (coreOf c).2 = core_evidence (fullTextOf c) := rfl

@[simp] lemma collabOf_fst (c : CandidateProfile) :
    (collabOf c).1 = collab_score_val (fullTextOf c) := rfl

@[simp] lemma collabOf_snd (c : CandidateProfile) :
    (collabOf c).2 = collab_evidence (fullTextOf c) := rfl

@[simp] lemma fitOf_fst (c : CandidateProfile) :
    (fitOf c).1 = fit_score_val c (fullTextOf c) := rfl

@[simp] lemma fitOf_snd (c : CandidateProfile) :
    (fitOf c).2 = fit_evidence c (fullTextOf c) := rfl

@[simp] lemma eduOf_fst (c : CandidateProfile) :
    (eduOf c).1 = edu_score_val (fullTextOf c) := rfl

@[simp] lemma eduOf_snd (c : CandidateProfile) :
    (eduOf c).2 = edu_evidence (fullTextOf c) := rfl

lemma expOf_eq {c : CandidateProfile} {e : ℚ × List String} (hE : expOf c = some e) :
    ∃ s, score_experience_years c.years_experience = some s ∧
      e = (exp_score_val (fullTextOf c) s, exp_evidence c (fullTextOf c)) := by
  unfold expOf score_experience at hE
  cases hy : score_experience_years c.years_experience with
  | none => rw [hy] at hE; simp at hE
  | some s =>
    rw [hy] at hE
    refine ⟨s, rfl, ?_⟩
    simpa using hE.symm

lemma expOf_bounds {c : CandidateProfile} {e : ℚ × List String} (hE : expOf c = some e) :
    5 ≤ e.1 ∧ e.1 ≤ 10 := by
  obtain ⟨s, hy, he⟩ := expOf_eq hE
  obtain ⟨h5, h10⟩ := sey_bounds hy
  subst he
  exact exp_score_val_bounds (fullTextOf c) h5 h10

lemma expOf_evidence {c : CandidateProfile} {e : ℚ × List String} (hE : expOf c = some e) :
    e.2 = exp_evidence c (fullTextOf c) := by
  obtain ⟨s, _, he⟩ := expOf_eq hE
  subst he
  rfl

/- ===== claim theorems ===== -/

/-- C1: for every candidate that the Bias Guard flags, the returned result has
status "Flagged for Review", overriding the Rejected/Shortlisted status that
the score-based decision produced, and every other field (final_score, band,
dimension_scores, shortlist_reasons, concerns, rejection_reasons, and also
bias_flags and candidate_id) is exactly what the non-overridden decision
(evaluate_plain) produced: the result is the plain result with only the
status field replaced. -/
theorem C1_bias_override (c : CandidateProfile) (r : EvaluationResult)
    (h : evaluate c = some r) (hf : flaggedOf c = true) :
    r.status = "Flagged for Review" ∧
    ∃ r0, evaluate_plain c = some r0 ∧
      (r0.status = "Rejected" ∨ r0.status = "Shortlisted") ∧
      r = { r0 with status := "Flagged for Review" } := by
  obtain ⟨e, hE, hr⟩ := evaluate_eq_some h
  subst hr
  refine ⟨by rw [buildResult_status, statusFinal_flagged e hf],
    buildResult c e (statusTuple c e).1, ?_, ?_, ?_⟩
  · unfold evaluate_plain
    rw [hE]
    rfl
  · rw [buildResult_status]
    unfold statusTuple
    exact determine_status_fst _ _ _ _
  · rw [statusFinal_flagged e hf]
    rfl

/-- C1 witness: a concrete flagged candidate ("i am a woman" in
additional_info) gets status "Flagged for Review". -/
theorem C1_bias_override_witness :
    flaggedOf flagCandidate = true ∧
    ((evaluate flagCandidate).map EvaluationResult.status).getD "" = "Flagged for Review" := by
  have hEv := evaluate_some_of_exp flag_exp
  have h := C1_bias_override flagCandidate _ hEv flag_flagged
  refine ⟨flag_flagged, ?_⟩
  rw [hEv]
  simpa using h.1

/-- C2: for every unflagged candidate whose Core-competencies score is exactly
0, the status is Rejected with the single fixed no-relevant-tools rejection
reason, empty shortlist_reasons and empty concerns, whatever the final score
and the other dimension scores are (the numeric threshold check is bypassed). -/
theorem C2_zero_core_reject (c : CandidateProfile) (r : EvaluationResult)
    (h : evaluate c = some r) (hf : flaggedOf c = false)
    (hcore : r.dimension_scores.core_competencies.score = 0) :
    r.status = "Rejected" ∧
    r.rejection_reasons =
      ["Core competencies do not match required role stack (no relevant tools detected)"] ∧
    r.shortlist_reasons = [] ∧ r.concerns = [] := by
  obtain ⟨e, hE, hr⟩ := evaluate_eq_some h
  subst hr
  simp only [buildResult_dims, dimsOf_core_score] at hcore
  have hst : statusTuple c e =
      ("Rejected", [], [],
       ["Core competencies do not match required role stack (no relevant tools detected)"]) := by
    unfold statusTuple
    exact determine_status_zero_case _ _ _ hcore
  refine ⟨?_, ?_, ?_, ?_⟩
  · rw [buildResult_status, statusFinal_not_flagged e hf, hst]
  · rw [buildResult_rejection, hst]
  · rw [buildResult_shortlist, hst]
  · rw [buildResult_concerns, hst]

/-- C2 witness: the all-empty candidate has core score 0, is not flagged, and
is rejected with exactly the fixed reason. -/
theorem C2_zero_core_reject_witness :
    flaggedOf emptyCandidate = false ∧
    ((evaluate emptyCandidate).map
      (fun r => (r.dimension_scores.core_competencies.score, r.status, r.rejection_reasons,
                 r.shortlist_reasons, r.concerns)))
      = some (0, "Rejected",
          ["Core competencies do not match required role stack (no relevant tools detected)"],
          [], []) := by
  have hEv := evaluate_some_of_exp empty_exp
  have hc : (buildResult emptyCandidate
      (5, exp_evidence emptyCandidate (fullTextOf emptyCandidate))
      (statusFinal emptyCandidate
        (5, exp_evidence emptyCandidate
          (fullTextOf emptyCandidate)))).dimension_scores.core_competencies.score = 0 := by
    rw [buildResult_dims, dimsOf_core_score]
    exact empty_core
  have h := C2_zero_core_reject emptyCandidate _ hEv empty_flag hc
  refine ⟨empty_flag, ?_⟩
  rw [hEv]
  simp only [Option.map_some']
  rw [hc, h.1, h.2.1, h.2.2.1, h.2.2.2]

lemma c3_statusTuple_fst :
    (statusTuple c3Candidate (10, exp_evidence c3Candidate (fullTextOf c3Candidate))).1 =
      "Shortlisted" := by
  unfold statusTuple
  rw [determine_status_shortlist_case _ _
    (by rw [c3_core]; norm_num)
    (by rw [c3_final]; norm_num [REJECTION_THRESHOLD])]

lemma c3_band : get_score_band (1391/20) = "Borderline" := by
  unfold get_score_band
  rw [if_neg (by norm_num), if_neg (by norm_num), if_pos (by norm_num)]

/-- C3 counterexample: on the Section-8 scenario candidate (cv_text "after
effects, rigging, collaborated with team, 2 years experience, fluent
English", english_level Advanced, years 2, other text fields empty) the code
gives Core-competencies 5.2 — not ≥ 8 — and final_score 69.55 — not ≥ 70 —
with band "Borderline", so the claimed conjunction is false, although the
status is indeed Shortlisted. -/
theorem C3_scenario_counterexample :
    ((evaluate c3Candidate).map
      (fun r => (r.dimension_scores.core_competencies.score, r.final_score, r.band, r.status)))
      = some (26/5, 1391/20, "Borderline", "Shortlisted") ∧
    ¬ (8 ≤ (26/5 : ℚ)) ∧ ¬ (70 ≤ (1391/20 : ℚ)) := by
  have hEv := evaluate_some_of_exp c3_exp
  refine ⟨?_, by norm_num, by norm_num⟩
  rw [hEv]
  simp only [Option.map_some', buildResult_dims, dimsOf_core_score, buildResult_final,
    buildResult_band, buildResult_status]
  rw [statusFinal_not_flagged _ c3_flag, c3_statusTuple_fst, c3_core, c3_final, c3_band]

/-- C3 amended: on the scenario candidate, Experience is exactly 10,
Collaboration is 6.3 (≥ 6), Cultural fit is exactly 7.5 (≥ 7.5) and the
status is Shortlisted, as claimed; but Core-competencies is 5.2 (not ≥ 8)
and final_score is 69.55, which only reaches ≥ 60 / band "Borderline"
(not ≥ 70 / Good Fit). -/
theorem C3_scenario_amended :
    ((evaluate c3Candidate).map
      (fun r => (r.dimension_scores.core_competencies.score,
                 r.dimension_scores.experience_results.score,
                 r.dimension_scores.collaboration_signals.score,
                 r.dimension_scores.cultural_practical_fit.score,
                 r.final_score, r.band, r.status)))
      = some (26/5, 10, 63/10, 15/2, 1391/20, "Borderline", "Shortlisted") ∧
    (6 ≤ (63/10 : ℚ)) ∧ ((15/2 : ℚ) ≤ 15/2) ∧ (60 ≤ (1391/20 : ℚ)) := by
  have hEv := evaluate_some_of_exp c3_exp
  refine ⟨?_, by norm_num, le_refl _, by norm_num⟩
  rw [hEv]
  simp only [Option.map_some', buildResult_dims, dimsOf_core_score, dimsOf_exp_score,
    dimsOf_collab_score, dimsOf_fit_score, buildResult_final, buildResult_band,
    buildResult_status]
  rw [statusFinal_not_flagged _ c3_flag, c3_statusTuple_fst, c3_core, c3_collab, c3_fit,
    c3_final, c3_band]

/-- C4: the years-of-experience lookup is NOT total as claimed: for an input
that parses to IEEE NaN (for example the string "nan", or the NaN a pandas
loader produces for an empty cell) every range comparison is False and the
Python function falls off its if/elif chain, returning None instead of one of
5/6/8/10; every other input does map to 5, 6, 8 or 10. -/
theorem C4_years_lookup :
    score_experience_years Years.nan = none ∧
    ∀ y : Years, y = Years.nan ∨
      score_experience_years y = some 5 ∨ score_experience_years y = some 6 ∨
      score_experience_years y = some 8 ∨ score_experience_years y = some 10 := by
  refine ⟨rfl, ?_⟩
  intro y
  cases y with
  | nan => exact Or.inl rfl
  | notStated => exact Or.inr (Or.inl rfl)
  | pyNone => exact Or.inr (Or.inl rfl)
  | unparsable s => exact Or.inr (Or.inl rfl)
  | num q =>
    right
    simp only [score_experience_years]
    split_ifs with h1 h2 h3 h4 h5
    · simp
    · simp
    · simp
    · simp
    · simp
    · exfalso
      have b1 : (1:ℚ)/2 ≤ q := not_lt.mp h5
      have b2 : (1:ℚ) ≤ q := by
        by_contra hq
        exact h2 ⟨b1, not_le.mp hq⟩
      have b3 : (3:ℚ) < q := by
        by_contra hq
        exact h1 ⟨b2, not_lt.mp hq⟩
      have b4 : (5:ℚ) < q := by
        by_contra hq
        exact h3 ⟨b3, not_lt.mp hq⟩
      exact h4 b4

/-- C5: the band function maps scores by inclusive lower bounds, covering all
scores with no gap or overlap: ≥ 85 Strong Fit, [70,85) Good Fit, [60,70)
Borderline, < 60 Reject; in particular band(85) = Strong Fit, band(84.9) =
Good Fit, band(70) = Good Fit and band(59.9) = Reject. -/
theorem C5_band_mapping :
    (∀ s : ℚ, 85 ≤ s → get_score_band s = "Strong Fit") ∧
    (∀ s : ℚ, 70 ≤ s → s < 85 → get_score_band s = "Good Fit") ∧
    (∀ s : ℚ, 60 ≤ s → s < 70 → get_score_band s = "Borderline") ∧
    (∀ s : ℚ, s < 60 → get_score_band s = "Reject") ∧
    get_score_band 85 = "Strong Fit" ∧ get_score_band (849/10) = "Good Fit" ∧
    get_score_band 70 = "Good Fit" ∧ get_score_band (599/10) = "Reject" := by
  have h1 : ∀ s : ℚ, 85 ≤ s → get_score_band s = "Strong Fit" := by
    intro s hs
    unfold get_score_band
    rw [if_pos hs]
  have h2 : ∀ s : ℚ, 70 ≤ s → s < 85 → get_score_band s = "Good Fit" := by
    intro s hs hs'
    unfold get_score_band
    rw [if_neg (not_le.mpr hs'), if_pos hs]
  have h3 : ∀ s : ℚ, 60 ≤ s → s < 70 → get_score_band s = "Borderline" := by
    intro s hs hs'
    unfold get_score_band
    rw [if_neg (by exact not_le.mpr (by linarith)), if_neg (not_le.mpr hs'), if_pos hs]
  have h4 : ∀ s : ℚ, s < 60 → get_score_band s = "Reject" := by
    intro s hs
    unfold get_score_band
    rw [if_neg (by exact not_le.mpr (by linarith)), if_neg (by exact not_le.mpr (by linarith)),
      if_neg (not_le.mpr hs)]
  exact ⟨h1, h2, h3, h4, h1 85 (by norm_num), h2 (849/10) (by norm_num) (by norm_num),
    h2 70 (by norm_num) (by norm_num), h4 (599/10) (by norm_num)⟩

/-- C5 witness: the band function evaluated through the theorem at concrete
scores in each of the four ranges. -/
theorem C5_band_mapping_witness :
    get_score_band 90 = "Strong Fit" ∧ get_score_band (849/10) = "Good Fit" ∧
    get_score_band 65 = "Borderline" ∧ get_score_band (599/10) = "Reject" :=
  ⟨C5_band_mapping.1 90 (by norm_num),
   C5_band_mapping.2.1 (849/10) (by norm_num) (by norm_num),
   C5_band_mapping.2.2.1 65 (by norm_num) (by norm_num),
   C5_band_mapping.2.2.2.1 (599/10) (by norm_num)⟩

/-- C6: for every evaluated candidate the final score is the sum of
score × weight × 10 over the five fixed dimensions, the five fixed weights
sum to exactly 1, every dimension score lies in [0,10], and the final score
lies in [0,100]. -/
theorem C6_final_score_invariants (c : CandidateProfile) (r : EvaluationResult)
    (h : evaluate c = some r) :
    DIMENSION_WEIGHTS "core_competencies" + DIMENSION_WEIGHTS "experience_results"
      + DIMENSION_WEIGHTS "collaboration_signals" + DIMENSION_WEIGHTS "cultural_practical_fit"
      + DIMENSION_WEIGHTS "education_other" = 1 ∧
    r.final_score = ((r.dimension_scores.toList.map (fun p => p.2.weighted_score)).sum) ∧
    (∀ p ∈ r.dimension_scores.toList, 0 ≤ p.2.score ∧ p.2.score ≤ 10) ∧
    0 ≤ r.final_score ∧ r.final_score ≤ 100 := by
  obtain ⟨e, hE, hr⟩ := evaluate_eq_some h
  subst hr
  have hcore := core_score_val_bounds (fullTextOf c)
  have hexp := expOf_bounds hE
  have hcollab := collab_score_val_bounds (fullTextOf c)
  have hfit := fit_score_val_bounds c (fullTextOf c)
  have hedu := edu_score_val_bounds (fullTextOf c)
  refine ⟨by rw [w_core, w_exp, w_collab, w_fit, w_edu]; norm_num, rfl, ?_, ?_, ?_⟩
  · intro p hp
    simp only [buildResult_dims, DimensionScores.toList, dimsOf, List.mem_cons,
      List.not_mem_nil, or_false] at hp
    rcases hp with rfl | rfl | rfl | rfl | rfl
    · exact ⟨hcore.1, hcore.2⟩
    · exact ⟨le_trans (by norm_num) hexp.1, hexp.2⟩
    · exact ⟨le_trans (by norm_num) hcollab.1, hcollab.2⟩
    · exact ⟨le_trans (by norm_num) hfit.1, hfit.2⟩
    · exact ⟨le_trans (by norm_num) hedu.1, hedu.2⟩
  · rw [buildResult_final]
    unfold finalOf
    simp only [DimensionScores.toList, dimsOf, List.map_cons, List.map_nil, List.sum_cons,
      List.sum_nil, DimensionScore.weighted_score, coreOf_fst, collabOf_fst, fitOf_fst,
      eduOf_fst, w_core, w_exp, w_collab, w_fit, w_edu]
    nlinarith [hcore.1, hexp.1, hcollab.1, hfit.1, hedu.1]
  · rw [buildResult_final]
    unfold finalOf
    simp only [DimensionScores.toList, dimsOf, List.map_cons, List.map_nil, List.sum_cons,
      List.sum_nil, DimensionScore.weighted_score, coreOf_fst, collabOf_fst, fitOf_fst,
      eduOf_fst, w_core, w_exp, w_collab, w_fit, w_edu]
    nlinarith [hcore.2, hexp.2, hcollab.2, hfit.2, hedu.2]

/-- C6 witness: the invariants instantiated on the all-empty candidate. -/
theorem C6_final_score_invariants_witness :
    (0 ≤ ((evaluate emptyCandidate).map EvaluationResult.final_score).getD 0) ∧
    (((evaluate emptyCandidate).map EvaluationResult.final_score).getD 0 ≤ 100) ∧
    DIMENSION_WEIGHTS "core_competencies" + DIMENSION_WEIGHTS "experience_results"
      + DIMENSION_WEIGHTS "collaboration_signals" + DIMENSION_WEIGHTS "cultural_practical_fit"
      + DIMENSION_WEIGHTS "education_other" = 1 := by
  have hEv := evaluate_some_of_exp empty_exp
  have h := C6_final_score_invariants emptyCandidate _ hEv
  refine ⟨?_, ?_, h.1⟩
  · rw [hEv]
    simpa using h.2.2.2.1
  · rw [hEv]
    simpa using h.2.2.2.2

/-- C7: for every candidate reaching the Shortlisted state (core score
nonzero and final score ≥ 60), the shortlist reasons are obtained by sorting
the five dimensions by score descending (stably), taking the top three,
keeping those with score ≥ 6, and rendering name, weight percentage and
first evidence string; independently every dimension scoring below 5 yields
one "Limited ⟨dimension⟩ signals" concern, and the rejection reasons are
empty. -/
theorem C7_shortlist_reasons (c : CandidateProfile) (r : EvaluationResult)
    (h : evaluate c = some r)
    (hcore : r.dimension_scores.core_competencies.score ≠ 0)
    (hfinal : 60 ≤ r.final_score) :
    r.shortlist_reasons =
      (((sortByScoreDesc r.dimension_scores.toList).take 3).filter
          (fun p => decide (6 ≤ p.2.score))).map
        (fun p => p.2.name ++ " (" ++ toString (pctInt p.2.weight) ++ "%): "
          ++ p.2.evidence.headD "") ∧
    r.concerns =
      (r.dimension_scores.toList.filter (fun p => decide (p.2.score < 5))).map
        (fun p => "Limited " ++ lowerStr p.2.name ++ " signals") ∧
    r.rejection_reasons = [] := by
  obtain ⟨e, hE, hr⟩ := evaluate_eq_some h
  subst hr
  simp only [buildResult_dims, dimsOf_core_score] at hcore
  simp only [buildResult_final] at hfinal
  have hst := determine_status_shortlist_case
    (get_score_band (finalOf c e)) (dimsOf c e) hcore (not_lt.mpr hfinal)
  have hst' : statusTuple c e = _ := hst
  refine ⟨?_, ?_, ?_⟩
  · rw [buildResult_shortlist, buildResult_dims, hst']
  · rw [buildResult_concerns, buildResult_dims, hst']
  · rw [buildResult_rejection, hst']

/-- C7 witness: the scenario candidate is shortlisted (core 5.2 ≠ 0, final
69.55 ≥ 60) and its rejection reasons are empty while concerns and shortlist
reasons have the shape the theorem states. -/
theorem C7_shortlist_reasons_witness :
    ((evaluate c3Candidate).map
      (fun r => (r.dimension_scores.core_competencies.score, r.final_score,
                 r.rejection_reasons))) = some (26/5, 1391/20, []) := by
  have hEv := evaluate_some_of_exp c3_exp
  have hcore : (buildResult c3Candidate (10, exp_evidence c3Candidate (fullTextOf c3Candidate))
      (statusFinal c3Candidate (10, exp_evidence c3Candidate
        (fullTextOf c3Candidate)))).dimension_scores.core_competencies.score ≠ 0 := by
    rw [buildResult_dims, dimsOf_core_score, c3_core]
    norm_num
  have hfinal : 60 ≤ (buildResult c3Candidate
      (10, exp_evidence c3Candidate (fullTextOf c3Candidate))
      (statusFinal c3Candidate (10, exp_evidence c3Candidate
        (fullTextOf c3Candidate)))).final_score := by
    rw [buildResult_final, c3_final]
    norm_num
  have h := C7_shortlist_reasons c3Candidate _ hEv hcore hfinal
  rw [hEv]
  simp only [Option.map_some', buildResult_dims, dimsOf_core_score, buildResult_final]
  rw [c3_core, c3_final, h.2.2]

/-- C8: in every evaluated result, each of the five dimension evidence lists
is non-empty: a neutral fallback string is substituted whenever no scoring
rule fired for the dimension. -/
theorem C8_evidence_nonempty (c : CandidateProfile) (r : EvaluationResult)
    (h : evaluate c = some r) :
    r.dimension_scores.core_competencies.evidence ≠ [] ∧
    r.dimension_scores.experience_results.evidence ≠ [] ∧
    r.dimension_scores.collaboration_signals.evidence ≠ [] ∧
    r.dimension_scores.cultural_practical_fit.evidence ≠ [] ∧
    r.dimension_scores.education_other.evidence ≠ [] := by
  obtain ⟨e, hE, hr⟩ := evaluate_eq_some h
  subst hr
  refine ⟨?_, ?_, ?_, ?_, ?_⟩
  · rw [buildResult_dims]
    exact core_evidence_ne (fullTextOf c)
  · rw [buildResult_dims]
    show e.2 ≠ []
    rw [expOf_evidence hE]
    exact exp_evidence_ne c (fullTextOf c)
  · rw [buildResult_dims]
    exact collab_evidence_ne (fullTextOf c)
  · rw [buildResult_dims]
    exact fit_evidence_ne c (fullTextOf c)
  · rw [buildResult_dims]
    exact edu_evidence_ne (fullTextOf c)

/-- C8 witness: even for the candidate whose text fields are all empty, every
evidence list of the result is non-empty. -/
theorem C8_evidence_nonempty_witness :
    ((evaluate emptyCandidate).map
      (fun r => r.dimension_scores.core_competencies.evidence)).getD [] ≠ [] ∧
    ((evaluate emptyCandidate).map
      (fun r => r.dimension_scores.experience_results.evidence)).getD [] ≠ [] ∧
    ((evaluate emptyCandidate).map
      (fun r => r.dimension_scores.collaboration_signals.evidence)).getD [] ≠ [] ∧
    ((evaluate emptyCandidate).map
      (fun r => r.dimension_scores.cultural_practical_fit.evidence)).getD [] ≠ [] ∧
    ((evaluate emptyCandidate).map
      (fun r => r.dimension_scores.education_other.evidence)).getD [] ≠ [] := by
  have hEv := evaluate_some_of_exp empty_exp
  have h := C8_evidence_nonempty emptyCandidate _ hEv
  refine ⟨?_, ?_, ?_, ?_, ?_⟩ <;> rw [hEv] <;> simp only [Option.map_some', Option.getD_some]
  · exact h.1
  · exact h.2.1
  · exact h.2.2.1
  · exact h.2.2.2.1
  · exact h.2.2.2.2

lemma limited_core_string :
    "Limited " ++ lowerStr "Core Competencies" ++ " signals" =
      "Limited core competencies signals" := by decide

lemma weak_core_string_head : ("Weak " ++ "Core Competencies") ++ ": " =
    "Weak Core Competencies: " := by decide

/-- C9: in every evaluated result the Experience, Collaboration, Cultural-fit
and Education scores are at least 5 (their baselines and the years lookup
never go lower and no boost is negative enough), so the "limited signals"
concerns and the per-dimension "Weak ..." rejection details can only ever
name the Core-competencies dimension. -/
theorem C9_only_core_concerns (c : CandidateProfile) (r : EvaluationResult)
    (h : evaluate c = some r) :
    5 ≤ r.dimension_scores.experience_results.score ∧
    5 ≤ r.dimension_scores.collaboration_signals.score ∧
    5 ≤ r.dimension_scores.cultural_practical_fit.score ∧
    5 ≤ r.dimension_scores.education_other.score ∧
    (r.concerns = [] ∨ r.concerns = ["Limited core competencies signals"]) ∧
    (∀ s ∈ r.rejection_reasons.tail,
      s = "Weak Core Competencies: "
        ++ fmt1 r.dimension_scores.core_competencies.score ++ "/10") := by
  obtain ⟨e, hE, hr⟩ := evaluate_eq_some h
  subst hr
  have hexp := expOf_bounds hE
  have hcollab := collab_score_val_bounds (fullTextOf c)
  have hfit := fit_score_val_bounds c (fullTextOf c)
  have hedu := edu_score_val_bounds (fullTextOf c)
  refine ⟨by simpa using hexp.1, by simpa using hcollab.1, by simpa using hfit.1,
    by simpa using hedu.1, ?_, ?_⟩
  · by_cases hz : (coreOf c).1 = 0
    · have hst : statusTuple c e = _ :=
        determine_status_zero_case (finalOf c e)
          (get_score_band (finalOf c e)) (dimsOf c e) hz
      left
      rw [buildResult_concerns, hst]
    · by_cases hth : finalOf c e < REJECTION_THRESHOLD
      · have hst : statusTuple c e = _ :=
          determine_status_threshold_case (get_score_band (finalOf c e)) (dimsOf c e) hz hth
        left
        rw [buildResult_concerns, hst]
      · have hst : statusTuple c e = _ :=
          determine_status_shortlist_case (get_score_band (finalOf c e)) (dimsOf c e) hz hth
        rw [buildResult_concerns, hst]
        have d2 : decide (e.1 < 5) = false := decide_eq_false (not_lt.mpr hexp.1)
        have d3 : decide (collab_score_val (fullTextOf c) < 5) = false :=
          decide_eq_false (not_lt.mpr hcollab.1)
        have d4 : decide (fit_score_val c (fullTextOf c) < 5) = false :=
          decide_eq_false (not_lt.mpr hfit.1)
        have d5 : decide (edu_score_val (fullTextOf c) < 5) = false :=
          decide_eq_false (not_lt.mpr hedu.1)
        cases hc : decide (core_score_val (fullTextOf c) < 5) with
        | false =>
          left
          simp [DimensionScores.toList, dimsOf, List.filter_cons, d2, d3, d4, d5, hc]
        | true =>
          right
          simp [DimensionScores.toList, dimsOf, List.filter_cons, d2, d3, d4, d5, hc]
          rw [← limited_core_string]
  · by_cases hz : (coreOf c).1 = 0
    · have hst : statusTuple c e = _ :=
        determine_status_zero_case (finalOf c e)
          (get_score_band (finalOf c e)) (dimsOf c e) hz
      rw [buildResult_rejection, hst]
      simp
    · by_cases hth : finalOf c e < REJECTION_THRESHOLD
      · have hst : statusTuple c e = _ :=
          determine_status_threshold_case (get_score_band (finalOf c e)) (dimsOf c e) hz hth
        rw [buildResult_rejection, hst]
        have d2 : decide (e.1 < 4) = false :=
          decide_eq_false (not_lt.mpr (by linarith [hexp.1]))
        have d3 : decide (collab_score_val (fullTextOf c) < 4) = false :=
          decide_eq_false (not_lt.mpr (by linarith [hcollab.1]))
        have d4 : decide (fit_score_val c (fullTextOf c) < 4) = false :=
          decide_eq_false (not_lt.mpr (by linarith [hfit.1]))
        have d5 : decide (edu_score_val (fullTextOf c) < 4) = false :=
          decide_eq_false (not_lt.mpr (by linarith [hedu.1]))
        cases hc : decide (core_score_val (fullTextOf c) < 4) with
        | false =>
          simp [DimensionScores.toList, dimsOf, List.filter_cons, d2, d3, d4, d5, hc]
        | true =>
          simp only [DimensionScores.toList, dimsOf, List.filter_cons, List.filter_nil,
            d2, d3, d4, d5, hc, if_true, if_false, List.tail_cons, List.map_cons,
            List.map_nil, List.mem_singleton, buildResult_dims, dimsOf_core_score,
            coreOf_fst]
          intro s hs
          have n3 : ¬ collab_score_val (fullTextOf c) < 4 := not_lt.mpr (by linarith [hcollab.1])
          have n4 : ¬ fit_score_val c (fullTextOf c) < 4 := not_lt.mpr (by linarith [hfit.1])
          have n5 : ¬ edu_score_val (fullTextOf c) < 4 := not_lt.mpr (by linarith [hedu.1])
          simp [n3, n4, n5] at hs
          exact hs
      · have hst : statusTuple c e = _ :=
          determine_status_shortlist_case (get_score_band (finalOf c e)) (dimsOf c e) hz hth
        rw [buildResult_rejection, hst]
        simp

/-- C9 witness: the theorem instantiated on the all-empty candidate (whose
years are "Not stated"): the four non-core scores are ≥ 5 and the concerns
list is empty or the single core-competencies concern. -/
theorem C9_only_core_concerns_witness :
    (5 ≤ ((evaluate emptyCandidate).map
      (fun r => r.dimension_scores.experience_results.score)).getD 0) ∧
    (5 ≤ ((evaluate emptyCandidate).map
      (fun r => r.dimension_scores.collaboration_signals.score)).getD 0) ∧
    (5 ≤ ((evaluate emptyCandidate).map
      (fun r => r.dimension_scores.cultural_practical_fit.score)).getD 0) ∧
    (5 ≤ ((evaluate emptyCandidate).map
      (fun r => r.dimension_scores.education_other.score)).getD 0) ∧
    (((evaluate emptyCandidate).map EvaluationResult.concerns).getD ["x"] = [] ∨
     ((evaluate emptyCandidate).map EvaluationResult.concerns).getD ["x"] =
       ["Limited core competencies signals"]) := by
  have hEv := evaluate_some_of_exp empty_exp
  have h := C9_only_core_concerns emptyCandidate _ hEv
  refine ⟨?_, ?_, ?_, ?_, ?_⟩
  · rw [hEv]
    simp
  · rw [hEv]
    simpa using h.2.1
  · rw [hEv]
    simpa using h.2.2.1
  · rw [hEv]
    simpa using h.2.2.2.1
  · rw [hEv]
    simp only [Option.map_some', Option.getD_some]
    exact h.2.2.2.2.1

lemma c10_statusTuple :
    statusTuple c10Candidate (5, exp_evidence c10Candidate (fullTextOf c10Candidate)) =
      ("Rejected", [], [], ["Score " ++ fmt1 48 ++ " below threshold (60)"]) := by
  unfold statusTuple
  rw [determine_status_threshold_case _ _
    (by rw [c10_core]; norm_num)
    (by rw [c10_final]; norm_num [REJECTION_THRESHOLD])]
  rw [c10_final]
  have hc : core_score_val (fullTextOf c10Candidate) = 4 := c10_core
  have hb : collab_score_val (fullTextOf c10Candidate) = 5 := c10_collab
  have hf : fit_score_val c10Candidate (fullTextOf c10Candidate) = 6 := c10_fit
  have hd : edu_score_val (fullTextOf c10Candidate) = 5 := c10_edu
  simp only [DimensionScores.toList, dimsOf, List.filter_cons, List.filter_nil,
    coreOf_fst, collabOf_fst, fitOf_fst, eduOf_fst, hc, hb, hf, hd]
  rw [decide_eq_false (by norm_num : ¬ (4:ℚ) < 4),
    decide_eq_false (by norm_num : ¬ (5:ℚ) < 4),
    decide_eq_false (by norm_num : ¬ (6:ℚ) < 4)]
  simp

/-- C10: keyword detection is raw substring containment on the lower-cased
combined text, not whole-word matching: the candidate whose cv_text is just
"aesthetic" mentions no animation tool, yet the required-tool keyword "ae"
matches inside the word, giving Core-competencies score 4 (≥ 4, in
particular nonzero), so the candidate escapes the zero-core-competency
rejection and is instead rejected by the ordinary score threshold. -/
theorem C10_substring_matching :
    strContains (fullTextOf c10Candidate) "ae" = true ∧
    foundKeywords REQUIRED_TOOLS (fullTextOf c10Candidate) = ["ae"] ∧
    ((evaluate c10Candidate).map
      (fun r => (r.dimension_scores.core_competencies.score, r.status, r.rejection_reasons)))
      = some (4, "Rejected", ["Score " ++ fmt1 48 ++ " below threshold (60)"]) ∧
    (4:ℚ) ≠ 0 := by
  have hEv := evaluate_some_of_exp c10_exp
  refine ⟨by decide, c10_req, ?_, by norm_num⟩
  rw [hEv]
  simp only [Option.map_some', buildResult_dims, dimsOf_core_score, buildResult_status,
    buildResult_rejection]
  rw [statusFinal_not_flagged _ c10_flag, c10_statusTuple, c10_core]
